import Mathlib

/-!
Verification of the streaming event decoder / chunk aggregator of
`src/frontend/chat_deployed.py`, the agent state machine of
`src/scout/graph.py`, and the environment check of `src/scout/env.py`,
via a shallow embedding in Lean.

Python values decoded from JSON are modelled by the inductive `Json`;
Python exceptions by `PyErr`; fallible Python functions return
`Except PyErr _`.
-/

/-- A decoded JSON value, as produced by Python's `json.loads`:
`null`, booleans, numbers (the payloads the decoder touches only use
integers), strings, lists, and dicts (association lists; keys are unique
because the loader overwrites on duplicate keys, keeping first position). -/
inductive Json where
  | null : Json
  | bool (b : Bool) : Json
  | num (n : Int) : Json
  | str (s : String) : Json
  | arr (xs : List Json) : Json
  | obj (kvs : List (String × Json)) : Json

/-- Python exceptions that the embedded code can raise. -/
inductive PyErr where
  | keyError (key : String) : PyErr
  | indexError (msg : String) : PyErr
  | typeError (msg : String) : PyErr
  | valueError (msg : String) : PyErr
  | attributeError (msg : String) : PyErr
  | unboundLocalError (name : String) : PyErr
  | jsonDecodeError (msg : String) : PyErr
deriving DecidableEq, Repr

/-- Python truthiness (`if v:`) of a decoded JSON value: `None`, `False`,
`0`, `""`, `[]` and `{}` are falsy, everything else truthy. -/
def py_truthy : Json → Bool
  | .null => false
  | .bool b => b
  | .num n => n != 0
  | .str s => s != ""
  | .arr xs => !xs.isEmpty
  | .obj kvs => !kvs.isEmpty

/-- Python equality `v == "s"` against a string literal: true exactly when
`v` is that string (in Python a `str` never equals a non-`str` value). -/
def py_eq_str (v : Json) (s : String) : Bool :=
  match v with
  | .str t => t == s
  | _ => false

/-- Bool-valued infix (substring) test on character lists, for Python's
`"k" in some_string`. -/
def char_list_contains (needle hay : List Char) : Bool :=
  hay.tails.any (fun t => needle.isPrefixOf t)

/-- Python membership `k in v` for a string key `k`: key membership on a
dict, element equality on a list, substring test on a string; other
values are not iterable and raise TypeError. -/
def py_contains (k : String) : Json → Except PyErr Bool
  | .obj kvs => .ok ((kvs.lookup k).isSome)
  | .arr xs => .ok (xs.any (fun j => match j with | .str s => s == k | _ => false))
  | .str s => .ok (char_list_contains k.data s.data)
  | _ => .error (.typeError "argument of type is not iterable")

/-- Python subscript `v[k]` for a string key: dict lookup (KeyError when
absent); strings and lists require integer indices; other values are not
subscriptable. -/
def py_getitem (v : Json) (k : String) : Except PyErr Json :=
  match v with
  | .obj kvs =>
    match kvs.lookup k with
    | some x => .ok x
    | none => .error (.keyError k)
  | .str _ => .error (.typeError "string indices must be integers")
  | .arr _ => .error (.typeError "list indices must be integers")
  | _ => .error (.typeError "object is not subscriptable")

/-- Python subscript `v[0]`: first element of a list (IndexError when
empty), first character of a string, KeyError `0` on a dict, TypeError
otherwise. -/
def py_index0 (v : Json) : Except PyErr Json :=
  match v with
  | .arr (x :: _) => .ok x
  | .arr [] => .error (.indexError "list index out of range")
  | .str s => if s = "" then .error (.indexError "string index out of range")
              else .ok (.str ⟨s.data.take 1⟩)
  | .obj _ => .error (.keyError "0")
  | _ => .error (.typeError "object is not subscriptable")

/-- Python `v.get(k, default)`: only dicts have `.get`; anything else
raises AttributeError. -/
def py_dict_get (v : Json) (k : String) (default : Json) : Except PyErr Json :=
  match v with
  | .obj kvs => .ok ((kvs.lookup k).getD default)
  | _ => .error (.attributeError "object has no attribute get")

/-- Python `str +=` right-hand side: must itself be a `str`. -/
def py_as_str : Json → Except PyErr String
  | .str s => .ok s
  | _ => .error (.typeError "can only concatenate str to str")

/-- Python `s.startswith(p)`, by code points (agrees with
`String.startsWith`; stated on the character list so that concrete
instances evaluate by reduction). -/
def str_startsWith (s p : String) : Bool :=
  p.data.isPrefixOf s.data

/-- Python slicing `s[n:]`, by code points (agrees with `String.drop`). -/
def str_drop (s : String) (n : Nat) : String :=
  ⟨s.data.drop n⟩

/-- Python `s.strip()`: remove leading and trailing whitespace. -/
def str_trim (s : String) : String :=
  ⟨(((s.data.dropWhile Char.isWhitespace).reverse).dropWhile
      Char.isWhitespace).reverse⟩

mutual

/-- Python `str(v)` as used by f-string interpolation: identity on
strings, `True`/`False`/`None` for the other scalars; containers render
via `repr` of their elements (string escaping inside `repr` is not
modelled; no claim formats a container). -/
def py_format : Json → String
  | .null => "None"
  | .bool true => "True"
  | .bool false => "False"
  | .num n => toString n
  | .str s => s
  | .arr xs => "[" ++ py_format_elems xs ++ "]"
  | .obj kvs => "\x7b" ++ py_format_pairs kvs ++ "\x7d"

/-- Python `repr(v)` for values nested inside a container. -/
def py_repr : Json → String
  | .null => "None"
  | .bool true => "True"
  | .bool false => "False"
  | .num n => toString n
  | .str s => "'" ++ s ++ "'"
  | .arr xs => "[" ++ py_format_elems xs ++ "]"
  | .obj kvs => "\x7b" ++ py_format_pairs kvs ++ "\x7d"

/-- Comma-separated `repr`s of list elements. -/
def py_format_elems : List Json → String
  | [] => ""
  | [x] => py_repr x
  | x :: rest => py_repr x ++ ", " ++ py_format_elems rest

/-- Comma-separated `repr`ed key/value pairs of a dict. -/
def py_format_pairs : List (String × Json) → String
  | [] => ""
  | [(k, v)] => "'" ++ k ++ "': " ++ py_repr v
  | (k, v) :: rest => "'" ++ k ++ "': " ++ py_repr v ++ ", " ++ py_format_pairs rest

end

/-! ## A model of `json.loads`

An executable recursive-descent JSON reader over the character list of
the payload, used where `chat_deployed.process_line` calls
`json.loads(data_content)`.  Recursion is bounded by explicit fuel.
Deviations from Python's loader, none of which any claim exercises:
floating-point literals, `\u` escapes and strict trailing-comma
rejection are not supported. -/

/-- Dict construction while loading: a repeated key overwrites the stored
value in place (Python dict insertion semantics). -/
def obj_insert (kvs : List (String × Json)) (k : String) (v : Json) :
    List (String × Json) :=
  if (kvs.lookup k).isSome then
    kvs.map (fun p => if p.1 = k then (k, v) else p)
  else
    kvs ++ [(k, v)]

/-- Drop leading JSON whitespace. -/
def skip_ws : List Char → List Char
  | c :: rest =>
    if c = ' ' ∨ c = '\n' ∨ c = '\t' ∨ c = '\r' then skip_ws rest else c :: rest
  | [] => []

/-- Read the body of a string literal (opening quote already consumed),
unescaping the common escape sequences; returns the string and the rest
of the input. -/
def read_string_body : List Char → Except String (String × List Char)
  | [] => .error "unterminated string"
  | c :: rest =>
    if c = '"' then .ok ("", rest)
    else if c = '\\' then
      match rest with
      | [] => .error "unterminated escape"
      | e :: rest2 =>
        let dec : Except String Char :=
          if e = '"' then .ok '"'
          else if e = '\\' then .ok '\\'
          else if e = '/' then .ok '/'
          else if e = 'n' then .ok '\n'
          else if e = 't' then .ok '\t'
          else if e = 'r' then .ok '\r'
          else if e = 'b' then .ok (Char.ofNat 8)
          else if e = 'f' then .ok (Char.ofNat 12)
          else .error "unsupported escape"
        match dec with
        | .error m => .error m
        | .ok ec =>
          match read_string_body rest2 with
          | .error m => .error m
          | .ok (s, r) => .ok (ec.toString ++ s, r)
    else
      match read_string_body rest with
      | .error m => .error m
      | .ok (s, r) => .ok (c.toString ++ s, r)

/-- Read a run of decimal digits as a natural number (at least one digit
required); returns the value and the rest of the input. -/
def read_digits (acc : Nat) (seen : Bool) : List Char → Except String (Nat × List Char)
  | [] => if seen then .ok (acc, []) else .error "expected digit"
  | c :: rest =>
    if c.isDigit then read_digits (acc * 10 + (c.toNat - '0'.toNat)) true rest
    else if seen then .ok (acc, c :: rest)
    else .error "expected digit"

mutual

/-- Read one JSON value. -/
def read_value : Nat → List Char → Except String (Json × List Char)
  | 0, _ => .error "input too deeply nested"
  | fuel + 1, cs =>
    match skip_ws cs with
    | [] => .error "unexpected end of input"
    | '{' :: rest =>
      (match skip_ws rest with
       | '}' :: r => .ok (.obj [], r)
       | r => read_members fuel r [])
    | '[' :: rest =>
      (match skip_ws rest with
       | ']' :: r => .ok (.arr [], r)
       | r => read_elements fuel r [])
    | '"' :: rest =>
      (match read_string_body rest with
       | .error m => .error m
       | .ok (s, r) => .ok (.str s, r))
    | 't' :: 'r' :: 'u' :: 'e' :: rest => .ok (.bool true, rest)
    | 'f' :: 'a' :: 'l' :: 's' :: 'e' :: rest => .ok (.bool false, rest)
    | 'n' :: 'u' :: 'l' :: 'l' :: rest => .ok (.null, rest)
    | '-' :: rest =>
      (match read_digits 0 false rest with
       | .error m => .error m
       | .ok (n, r) => .ok (.num (-(n : Int)), r))
    | c :: rest =>
      if c.isDigit then
        match read_digits 0 false (c :: rest) with
        | .error m => .error m
        | .ok (n, r) => .ok (.num (n : Int), r)
      else .error "unexpected character"

/-- Read the elements of a non-empty array, position just before a value. -/
def read_elements : Nat → List Char → List Json → Except String (Json × List Char)
  | 0, _, _ => .error "input too deeply nested"
  | fuel + 1, cs, acc =>
    match read_value fuel cs with
    | .error m => .error m
    | .ok (v, r) =>
      match skip_ws r with
      | ',' :: r2 => read_elements fuel r2 (v :: acc)
      | ']' :: r2 => .ok (.arr (v :: acc).reverse, r2)
      | _ => .error "expected comma or close bracket"

/-- Read the members of a non-empty object, position just before a key. -/
def read_members : Nat → List Char → List (String × Json) →
    Except String (Json × List Char)
  | 0, _, _ => .error "input too deeply nested"
  | fuel + 1, cs, acc =>
    match skip_ws cs with
    | '"' :: r =>
      (match read_string_body r with
       | .error m => .error m
       | .ok (k, r1) =>
         match skip_ws r1 with
         | ':' :: r2 =>
           (match read_value fuel r2 with
            | .error m => .error m
            | .ok (v, r3) =>
              match skip_ws r3 with
              | ',' :: r4 => read_members fuel r4 (obj_insert acc k v)
              | '}' :: r4 => .ok (.obj (obj_insert acc k v), r4)
              | _ => .error "expected comma or close brace")
         | _ => .error "expected colon")
    | _ => .error "expected object key"

end

/-- Python `json.loads`: read one value, then require only whitespace. -/
def json_loads (s : String) : Except String Json :=
  match read_value (2 * s.data.length + 2) s.data with
  | .error m => .error m
  | .ok (v, rest) =>
    match skip_ws rest with
    | [] => .ok v
    | _ => .error "extra data"

/-! ## The event stream decoder and chunk aggregator
(`src/frontend/chat_deployed.py`) -/

/-- Python unpacking `message_chunk, metadata = v`: succeeds on any
iterable of length two — a two-element list, a two-character string
(characters), or a two-key dict (its keys); raises ValueError on other
lengths and TypeError on non-iterables. -/
def py_unpack2 : Json → Except PyErr (Json × Json)
  | .arr [a, b] => .ok (a, b)
  | .arr _ => .error (.valueError "unpack expected two values")
  | .str s =>
    match s.data with
    | [a, b] => .ok (.str a.toString, .str b.toString)
    | _ => .error (.valueError "unpack expected two values")
  | .obj [(k1, _), (k2, _)] => .ok (.str k1, .str k2)
  | .obj _ => .error (.valueError "unpack expected two values")
  | _ => .error (.typeError "cannot unpack non-iterable")

/-- The body of `process_line`'s `"messages"` branch after the
two-element unpack (chat_deployed.py lines 89-113): the handling of one
decoded `message_chunk` value.  The returned value is the Python return
value (`None` is `none`).  Mirrors the source statement by statement:
the two sequential `if tool_name:` / `if args:` assignments to
`tool_call_str` are modelled as successive updates of an
initially-unassigned (`none`) local, and `return tool_call_str` raises
UnboundLocalError when the local is still unassigned. -/
def process_chunk (message_chunk : Json) : Except PyErr (Option Json) := do
  let has_type ← py_contains "type" message_chunk
  if has_type then
    let ty ← py_getitem message_chunk "type"
    if py_eq_str ty "AIMessageChunk" then
      let rm ← py_getitem message_chunk "response_metadata"
      let finish_hit ←
        if py_truthy rm then do
          let finish_reason ← py_dict_get rm "finish_reason" (.str "")
          pure (py_eq_str finish_reason "tool_calls")
        else
          pure false
      if finish_hit then
        return some (.str "\n\n")
      let tcc ← py_getitem message_chunk "tool_call_chunks"
      if py_truthy tcc then
        let tool_chunk ← py_index0 tcc
        let tool_name ← py_dict_get tool_chunk "name" (.str "")
        let args ← py_dict_get tool_chunk "args" (.str "")
        let t1 : Option Json :=
          if py_truthy tool_name then
            some (.str ("\n\n< TOOL CALL: " ++ py_format tool_name ++ " >\n\n"))
          else
            none
        let t2 : Option Json := if py_truthy args then some args else t1
        match t2 with
        | some tool_call_str => return some tool_call_str
        | none => throw (.unboundLocalError "tool_call_str")
      else
        return some (← py_getitem message_chunk "content")
    else
      return none
  else
    return none

/-- Embeds `process_line(line, current_event)` (chat_deployed.py lines
82-120).  On a `data: ` line with current event `"messages"` the payload
is loaded as JSON and unpacked into `(message_chunk, metadata)`; the
`"metadata"` branch and the fall-through for any other (or not yet seen)
event kind both return `None`, as does a non-`data:` line. -/
def process_line (line : String) (current_event : Option String) :
    Except PyErr (Option Json) :=
  if str_startsWith line "data: " then
    let data_content := str_drop line 6
    if current_event = some "messages" then do
      let parsed ←
        match json_loads data_content with
        | .ok j => pure j
        | .error m => throw (.jsonDecodeError m)
      let (message_chunk, _metadata) ← py_unpack2 parsed
      process_chunk message_chunk
    else
      .ok none
  else
    .ok none

/-- One iteration of `get_stream`'s line loop (chat_deployed.py lines
150-163) on the state `(full_content, current_event)`: blank lines are
skipped, an `event: ` line updates the current event kind, any other
line goes through `process_line` and a truthy result is appended to
`full_content` (which requires it to be a `str`). -/
def stream_step (st : String × Option String) (line : String) :
    Except PyErr (String × Option String) :=
  if line = "" then .ok st
  else if str_startsWith line "event: " then
    .ok (st.1, some (str_trim (str_drop line 7)))
  else do
    let r ← process_line line st.2
    match r with
    | none => .ok st
    | some v =>
      if py_truthy v then do
        let s ← py_as_str v
        .ok (st.1 ++ s, st.2)
      else
        .ok st

/-- The loop of `get_stream` over the received lines. -/
def get_stream_loop (st : String × Option String) :
    List String → Except PyErr (String × Option String)
  | [] => .ok st
  | l :: rest =>
    match stream_step st l with
    | .error e => .error e
    | .ok st2 => get_stream_loop st2 rest

/-- Aggregation of `get_stream` (chat_deployed.py lines 134-164) over a
finite list of received lines: `full_content` starts empty,
`current_event` starts as `None`, and the accumulated `full_content` is
returned. -/
def get_stream_lines (lines : List String) : Except PyErr String :=
  match get_stream_loop ("", none) lines with
  | .error e => .error e
  | .ok st => .ok st.1

/-- Concatenation of a list of strings in order. -/
def concat_strings : List String → String
  | [] => ""
  | s :: rest => s ++ concat_strings rest

/-! ## The agent state machine (`src/scout/graph.py`) -/

/-- A tool call attached to an assistant message. -/
structure ToolCall where
  id : String
  name : String
  args : List (String × Json)

/-- One conversation message; `tool_calls` is non-empty only on
assistant messages that request tools. -/
structure Message where
  role : String
  content : String
  tool_calls : List ToolCall

/-- The graph state `ScoutState` (graph.py lines 50-52). -/
structure ScoutState where
  messages : List Message
  chart_json : String := ""

/-- The nodes of the compiled graph: the synthetic `START`, the
`"chatbot"` node, the `"tools"` node, and the terminal `END`. -/
inductive GraphNode where
  | start : GraphNode
  | chatbot : GraphNode
  | tools : GraphNode
  | done : GraphNode
deriving DecidableEq, Repr

/-- The system message prepended by `scout_node`. -/
def system_message (system_prompt : String) : Message :=
  { role := "system", content := system_prompt, tool_calls := [] }

/-- The `scout_node` function (graph.py lines 89-95): invoke the model
on the system prompt followed by the history and append its response.
The model itself is an external collaborator, passed in as `llm`. -/
def scout_node (llm : List Message → Message) (system_prompt : String)
    (state : ScoutState) : ScoutState :=
  let response := llm (system_message system_prompt :: state.messages)
  { state with messages := state.messages ++ [response] }

/-- The `router` function (graph.py lines 97-102): look at the last
message (IndexError on an empty history, as `messages[-1]` would raise);
route to `END` when its tool-call list is empty and to `"tools"`
otherwise. -/
def router (state : ScoutState) : Except PyErr GraphNode :=
  match state.messages.getLast? with
  | none => .error (.indexError "list index out of range")
  | some last_message =>
    if last_message.tool_calls.isEmpty then .ok .done else .ok .tools

/-- The edges wired in `build_graph` (graph.py lines 104-111):
`START → chatbot`, the conditional edge out of `chatbot` decided by
`router`, and `tools → chatbot`; `END` is terminal. -/
def graph_next (n : GraphNode) (state : ScoutState) : Except PyErr GraphNode :=
  match n with
  | .start => .ok .chatbot
  | .chatbot => router state
  | .tools => .ok .chatbot
  | .done => .ok .done

/-! ## The environment check (`src/scout/env.py`) -/

/-- The `required_env_vars` list (env.py lines 16-19). -/
def required_env_vars : List String :=
  ["SUPABASE_URL", "GROQ_API_KEY"]

/-- The loop body of env.py lines 21-23: `for var in required_env_vars:
if not var: raise ValueError(...)`.  The tested value is the literal
list element `var` itself — a `str`, falsy exactly when empty. -/
def env_check_loop : List String → Except PyErr Unit
  | [] => .ok ()
  | var :: rest =>
    if var = "" then
      .error (.valueError ("Missing required environment variable: " ++ var))
    else
      env_check_loop rest

/-- Import-time behaviour of env.py on a given process environment
`env`: the module reads `SUPABASE_URL` and `GROQ_API_KEY` from the
environment into module globals, then runs the required-variable loop —
which never consults those globals or `env`. -/
def env_module_check (env : String → Option String) : Except PyErr Unit :=
  let _supabase_url := env "SUPABASE_URL"
  let _groq_api_key := env "GROQ_API_KEY"
  env_check_loop required_env_vars

/-! ## Shapes of concrete inputs used in statements and witnesses -/

/-- A `messages` chunk whose first tool-call fragment carries only an
argument fragment `s` (no tool name), as the model streams while filling
in one tool call's arguments. -/
def arg_fragment_chunk (s : String) : Json :=
  .obj [("type", .str "AIMessageChunk"), ("content", .str ""),
        ("response_metadata", .obj []),
        ("tool_call_chunks", .arr [.obj [("index", .num 0), ("args", .str s)]])]

/-- The received line `l` is a well-formed `data: ` line whose payload
decodes to `[arg_fragment_chunk s, {}]`, with `s` a non-empty argument
fragment. -/
def arg_fragment_line (s l : String) : Prop :=
  s ≠ "" ∧ l ≠ "" ∧ str_startsWith l "event: " = false ∧
  str_startsWith l "data: " = true ∧
  json_loads (str_drop l 6) = .ok (.arr [arg_fragment_chunk s, .obj []])

/-- A finish-marker chunk that also carries content and a tool-call
fragment, to exhibit that both are ignored. -/
def c1_example_fields : List (String × Json) :=
  [("type", .str "AIMessageChunk"), ("content", .str "ignored"),
   ("tool_call_chunks", .arr [.obj [("index", .num 0), ("name", .str "query_db"),
                                    ("args", .str "x")]]),
   ("response_metadata", .obj [("finish_reason", .str "tool_calls")])]

/-- A chunk whose first tool-call fragment carries both a tool name and
a non-empty argument string. -/
def c2_example_fields : List (String × Json) :=
  [("type", .str "AIMessageChunk"), ("content", .str ""),
   ("response_metadata", .obj []),
   ("tool_call_chunks",
    .arr [.obj [("index", .num 0), ("name", .str "query_db"),
                ("args", .str "\x7b\"q\":1\x7d")]])]

/-! ## Helper lemmas -/

@[simp] theorem except_ok_bind {ε α β : Type} (a : α) (f : α → Except ε β) :
    (Except.ok a >>= f : Except ε β) = f a := rfl

@[simp] theorem except_error_bind {ε α β : Type} (e : ε) (f : α → Except ε β) :
    (Except.error e >>= f : Except ε β) = Except.error e := rfl

@[simp] theorem except_pure_eq {ε α : Type} (a : α) :
    (pure a : Except ε α) = Except.ok a := rfl

@[simp] theorem except_throw_eq {ε α : Type} (e : ε) :
    (throw e : Except ε α) = Except.error e := rfl

theorem py_truthy_obj (kvs : List (String × Json)) :
    py_truthy (.obj kvs) = !kvs.isEmpty := rfl

theorem py_truthy_arr (xs : List Json) :
    py_truthy (.arr xs) = !xs.isEmpty := rfl

theorem py_truthy_str (s : String) :
    py_truthy (.str s) = (s != "") := rfl

theorem lookup_isEmpty_false {α : Type} {l : List (String × α)} {k : String}
    {v : α} (h : l.lookup k = some v) : l.isEmpty = false := by
  cases l with
  | nil => simp [List.lookup] at h
  | cons _ _ => rfl

/-! ## Claim C1: a finish-marker chunk aggregates to exactly one
paragraph break -/

/-- Claim C1: for every decoded `MessageChunk` of type `AIMessageChunk`
whose `response_metadata` carries `finish_reason == "tool_calls"`, the
aggregator emits exactly the paragraph-break unit `"\n\n"` for that
chunk and nothing else, whatever its `content` and `tool_call_chunks`
fields hold: the finish check returns before either is consulted. -/
theorem C1_finish_marker (fields rmf : List (String × Json))
    (ht : fields.lookup "type" = some (.str "AIMessageChunk"))
    (hrm : fields.lookup "response_metadata" = some (.obj rmf))
    (hfr : rmf.lookup "finish_reason" = some (.str "tool_calls")) :
    process_chunk (.obj fields) = .ok (some (.str "\n\n")) := by
  have h1 := lookup_isEmpty_false hfr
  simp [process_chunk, py_contains, py_getitem, py_dict_get, py_truthy, py_eq_str,
    ht, hrm, hfr, h1]

/-- Witness for C1: a finish-marker chunk that also carries content
`"ignored"` and a complete tool-call fragment still aggregates to
exactly `"\n\n"`. -/
theorem C1_finish_marker_witness :
    c1_example_fields.lookup "response_metadata" =
      some (.obj [("finish_reason", .str "tool_calls")]) ∧
    process_chunk (.obj c1_example_fields) = .ok (some (.str "\n\n")) :=
  ⟨rfl, C1_finish_marker c1_example_fields
    [("finish_reason", .str "tool_calls")] rfl rfl rfl⟩

/-! ## Claim C2: header emission for a named tool-call fragment -/

/-- Counterexample to claim C2: a first tool-call fragment carrying both
the name `query_db` and the non-empty argument string `{"q":1}` does not
yield the header marker — the emitted unit is the argument string,
because the `if args:` assignment overwrites `tool_call_str`. -/
theorem C2_header_counterexample :
    process_chunk (.obj c2_example_fields) = .ok (some (.str "\x7b\"q\":1\x7d")) ∧
    process_chunk (.obj c2_example_fields) ≠
      .ok (some (.str "\n\n< TOOL CALL: query_db >\n\n")) := by
  refine ⟨rfl, ?_⟩
  intro h
  rw [show process_chunk (.obj c2_example_fields) =
        .ok (some (.str "\x7b\"q\":1\x7d")) from rfl] at h
  simp at h

/-- Amended claim C2: for every chunk (no finish marker) whose first
tool-call fragment carries a tool name, the header marker
`"\n\n< TOOL CALL: {name} >\n\n"` is emitted only when the fragment's
argument string is empty; when the fragment also carries a non-empty
argument string, the argument text is emitted instead and the header is
dropped. -/
theorem C2_header_amended (fields rmf tcf : List (String × Json))
    (rest : List Json) (name : String)
    (ht : fields.lookup "type" = some (.str "AIMessageChunk"))
    (hrm : fields.lookup "response_metadata" = some (.obj rmf))
    (hfr : rmf.lookup "finish_reason" = none)
    (htcc : fields.lookup "tool_call_chunks" = some (.arr (.obj tcf :: rest)))
    (hname : tcf.lookup "name" = some (.str name))
    (hn : name ≠ "") :
    (tcf.lookup "args" = some (.str "") →
      process_chunk (.obj fields) =
        .ok (some (.str ("\n\n< TOOL CALL: " ++ name ++ " >\n\n")))) ∧
    (∀ a : String, a ≠ "" → tcf.lookup "args" = some (.str a) →
      process_chunk (.obj fields) = .ok (some (.str a))) := by
  constructor
  · intro hargs
    cases hre : rmf.isEmpty <;>
      simp [process_chunk, py_contains, py_getitem, py_dict_get, py_truthy, py_eq_str,
        py_index0, py_format, ht, hrm, hfr, htcc, hname, hargs, hre, hn]
  · intro a ha hargs
    cases hre : rmf.isEmpty <;>
      simp [process_chunk, py_contains, py_getitem, py_dict_get, py_truthy, py_eq_str,
        py_index0, py_format, ht, hrm, hfr, htcc, hname, hargs, hre, hn, ha]

/-- Witness for the amended C2: with name `query_db` and empty args the
header is emitted; with the same name and args `{"q":1}` the args text
is emitted. -/
theorem C2_header_amended_witness :
    process_chunk (.obj [("type", .str "AIMessageChunk"), ("content", .str ""),
        ("response_metadata", .obj []),
        ("tool_call_chunks",
         .arr [.obj [("index", .num 0), ("name", .str "query_db"),
                     ("args", .str "")]])]) =
      .ok (some (.str "\n\n< TOOL CALL: query_db >\n\n")) ∧
    process_chunk (.obj c2_example_fields) = .ok (some (.str "\x7b\"q\":1\x7d")) :=
  ⟨(C2_header_amended [("type", .str "AIMessageChunk"), ("content", .str ""),
      ("response_metadata", .obj []),
      ("tool_call_chunks",
       .arr [.obj [("index", .num 0), ("name", .str "query_db"),
                   ("args", .str "")]])] []
      [("index", .num 0), ("name", .str "query_db"), ("args", .str "")]
      [] "query_db" rfl rfl rfl rfl rfl (by decide)).1 rfl,
   (C2_header_amended [("type", .str "AIMessageChunk"), ("content", .str ""),
      ("response_metadata", .obj []),
      ("tool_call_chunks",
       .arr [.obj [("index", .num 0), ("name", .str "query_db"),
                   ("args", .str "\x7b\"q\":1\x7d")]])] []
      [("index", .num 0), ("name", .str "query_db"),
       ("args", .str "\x7b\"q\":1\x7d")] [] "query_db"
      rfl rfl rfl rfl rfl (by decide)).2 "\x7b\"q\":1\x7d" (by decide) rfl⟩

/-! ## Claim C3: the unbound-local failure of `process_line` -/

/-- Claim C3: `process_line` is not total on well-formed `messages` data
lines — for an `AIMessageChunk` whose non-empty `tool_call_chunks` list
has a first fragment carrying neither a (truthy) name nor a non-empty
args string, it raises UnboundLocalError for `tool_call_str` instead of
returning a value, since `tool_call_str` is returned without ever being
assigned. -/
theorem C3_unbound_local (line : String) (fields rmf tcf : List (String × Json))
    (meta : Json) (rest : List Json)
    (hl : str_startsWith line "data: " = true)
    (hp : json_loads (str_drop line 6) = .ok (.arr [.obj fields, meta]))
    (ht : fields.lookup "type" = some (.str "AIMessageChunk"))
    (hrm : fields.lookup "response_metadata" = some (.obj rmf))
    (hfr : rmf.lookup "finish_reason" = none)
    (htcc : fields.lookup "tool_call_chunks" = some (.arr (.obj tcf :: rest)))
    (hname : py_truthy ((tcf.lookup "name").getD (.str "")) = false)
    (hargs : py_truthy ((tcf.lookup "args").getD (.str "")) = false) :
    process_line line (some "messages") = .error (.unboundLocalError "tool_call_str") := by
  cases hre : rmf.isEmpty <;>
    simp [process_line, hl, hp, py_unpack2, process_chunk, py_contains, py_getitem,
      py_dict_get, py_eq_str, py_index0, py_truthy_obj, py_truthy_arr, ht, hrm, hfr,
      htcc, hname, hargs, hre]

/-- Witness for C3: a concrete data line whose first tool-call fragment
has only an index and a null id raises the unbound-local error. -/
theorem C3_unbound_local_witness :
    process_line
      "data: [\x7b\"type\":\"AIMessageChunk\",\"content\":\"\",\"response_metadata\":\x7b\x7d,\"tool_call_chunks\":[\x7b\"index\":0,\"id\":null\x7d]\x7d, \x7b\x7d]"
      (some "messages") = .error (.unboundLocalError "tool_call_str") :=
  C3_unbound_local _
    [("type", .str "AIMessageChunk"), ("content", .str ""),
     ("response_metadata", .obj []),
     ("tool_call_chunks", .arr [.obj [("index", .num 0), ("id", .null)]])]
    [] [("index", .num 0), ("id", .null)] (.obj []) []
    (by decide) rfl rfl rfl rfl rfl rfl rfl

/-! ## Claim C4: argument fragments are appended in arrival order -/

/-- An argument-fragment chunk with non-empty fragment `s` aggregates to
exactly that fragment's raw text. -/
theorem process_chunk_arg_fragment (s : String) (hs : s ≠ "") :
    process_chunk (arg_fragment_chunk s) = .ok (some (.str s)) := by
  simp [process_chunk, arg_fragment_chunk, py_contains, py_getitem, py_dict_get,
    py_eq_str, py_index0, py_truthy_obj, py_truthy_arr, py_truthy_str,
    List.lookup, hs]

/-- Folding the `get_stream` loop over argument-fragment data lines
appends each fragment to the accumulated transcript in arrival order. -/
theorem stream_loop_args (argss lines : List String)
    (h : List.Forall₂ arg_fragment_line argss lines) (acc : String) :
    get_stream_loop (acc, some "messages") lines =
      .ok (acc ++ concat_strings argss, some "messages") := by
  induction h generalizing acc with
  | nil => simp [get_stream_loop, concat_strings]
  | cons hab hrest ih =>
    obtain ⟨hs, hne, hev, hdata, hjson⟩ := hab
    have hpc := process_chunk_arg_fragment _ hs
    simp [get_stream_loop, stream_step, hne, hev, process_line, hdata, hjson,
      py_unpack2, hpc, py_truthy_str, py_as_str, hs, ih, concat_strings,
      String.append_assoc]

/-- Claim C4: for every sequence of chunks carrying (non-empty) argument
fragments for one tool call, the aggregated transcript of the run equals
the concatenation of the fragments in arrival order — fragments are
appended to `full_content`, never overwritten. -/
theorem C4_args_concat (argss lines : List String)
    (h : List.Forall₂ arg_fragment_line argss lines) :
    get_stream_lines ("event: messages" :: lines) = .ok (concat_strings argss) := by
  have h0 : stream_step ("", none) "event: messages" = .ok ("", some "messages") := by rfl
  have h1 := stream_loop_args argss lines h ""
  simp [get_stream_lines, get_stream_loop, h0, h1]

/-- Witness for C4: two argument fragments `"SELECT "` and `"1"` arrive
in order and aggregate to `"SELECT 1"`. -/
theorem C4_args_concat_witness :
    get_stream_lines ["event: messages",
      "data: [\x7b\"type\":\"AIMessageChunk\",\"content\":\"\",\"response_metadata\":\x7b\x7d,\"tool_call_chunks\":[\x7b\"index\":0,\"args\":\"SELECT \"\x7d]\x7d, \x7b\x7d]",
      "data: [\x7b\"type\":\"AIMessageChunk\",\"content\":\"\",\"response_metadata\":\x7b\x7d,\"tool_call_chunks\":[\x7b\"index\":0,\"args\":\"1\"\x7d]\x7d, \x7b\x7d]"]
      = .ok "SELECT 1" := by
  have := C4_args_concat ["SELECT ", "1"]
    ["data: [\x7b\"type\":\"AIMessageChunk\",\"content\":\"\",\"response_metadata\":\x7b\x7d,\"tool_call_chunks\":[\x7b\"index\":0,\"args\":\"SELECT \"\x7d]\x7d, \x7b\x7d]",
     "data: [\x7b\"type\":\"AIMessageChunk\",\"content\":\"\",\"response_metadata\":\x7b\x7d,\"tool_call_chunks\":[\x7b\"index\":0,\"args\":\"1\"\x7d]\x7d, \x7b\x7d]"]
    (List.Forall₂.cons ⟨by decide, by decide, by decide, by decide, by rfl⟩
      (List.Forall₂.cons ⟨by decide, by decide, by decide, by decide, by rfl⟩
        List.Forall₂.nil))
  simpa using this

/-! ## Claim C5: a data line before any event marker -/

/-- Counterexample to claim C5: a data line processed while
`current_event` is still `None` neither raises nor produces output — it
is silently ignored, and a stream consisting of only that line
aggregates to the empty transcript. -/
theorem C5_premature_data_counterexample :
    process_line "data: \x7b\"oops\": 1\x7d" none = .ok none ∧
    get_stream_lines ["data: \x7b\"oops\": 1\x7d"] = .ok "" :=
  ⟨rfl, rfl⟩

/-- Amended claim C5: a data line arriving before any event marker is
not an error condition — with `current_event` still undefined neither
the `messages` nor the `metadata` branch applies, so `process_line`
silently returns no output and never raises, for every line. -/
theorem C5_premature_data_amended (line : String) :
    process_line line none = .ok none := by
  simp [process_line]

/-! ## Claim C6: routing after the chatbot step -/

/-- Claim C6: from `START` the machine enters `CHATBOT`; after the
single `CHATBOT` step appends the model's response, the `ROUTE`
decision sends the run to `END` exactly when the response carries no
tool calls, and to `TOOLS` otherwise. -/
theorem C6_router (llm : List Message → Message) (sp : String) (state : ScoutState) :
    graph_next .start state = .ok .chatbot ∧
    ((llm (system_message sp :: state.messages)).tool_calls = [] →
      graph_next .chatbot (scout_node llm sp state) = .ok .done) ∧
    ((llm (system_message sp :: state.messages)).tool_calls ≠ [] →
      graph_next .chatbot (scout_node llm sp state) = .ok .tools) := by
  refine ⟨rfl, ?_, ?_⟩ <;> intro h <;>
    simp [graph_next, router, scout_node, List.getLast?_concat, h]

/-- Witness for C6: a model response without tool calls routes to `END`;
one with a tool call routes to `TOOLS`. -/
theorem C6_router_witness :
    graph_next .chatbot
      (scout_node (fun _ => Message.mk "assistant" "hello" []) "sys"
        (ScoutState.mk [Message.mk "human" "hi" []] ""))
      = .ok .done ∧
    graph_next .chatbot
      (scout_node (fun _ => Message.mk "assistant" ""
          [ToolCall.mk "1" "query_db" []]) "sys"
        (ScoutState.mk [] ""))
      = .ok .tools :=
  ⟨(C6_router (fun _ => Message.mk "assistant" "hello" []) "sys"
      (ScoutState.mk [Message.mk "human" "hi" []] "")).2.1 rfl,
   (C6_router (fun _ => Message.mk "assistant" "" [ToolCall.mk "1" "query_db" []])
      "sys" (ScoutState.mk [] "")).2.2 (by simp)⟩

/-! ## Claim C7: non-`messages` event kinds are silent no-ops -/

/-- Claim C7: every line processed while the current event kind is
`metadata` — or any other kind different from `messages` — produces no
visible output and raises nothing, whatever the payload holds: the
payload is never parsed on those branches. -/
theorem C7_non_messages_noop (line : String) (ev : String)
    (hev : ev ≠ "messages") :
    process_line line (some ev) = .ok none := by
  simp [process_line, hev]

/-- Witness for C7: a `metadata`-kind data line whose payload is not
even JSON still decodes to no output without raising. -/
theorem C7_non_messages_noop_witness :
    ("metadata" : String) ≠ "messages" ∧
    process_line "data: \x7bnot json at all" (some "metadata") = .ok none :=
  ⟨by decide, C7_non_messages_noop "data: \x7bnot json at all" "metadata" (by decide)⟩

/-! ## Claim C8: plain content chunks -/

/-- Claim C8: a well-formed `messages` chunk of type `AIMessageChunk`
with no finish reason and no tool-call fragments emits exactly its
content string, and when that string is empty the aggregation step
leaves the transcript unchanged. -/
theorem C8_plain_content (line : String) (fields rmf : List (String × Json))
    (meta : Json) (c : String)
    (hl : str_startsWith line "data: " = true)
    (hp : json_loads (str_drop line 6) = .ok (.arr [.obj fields, meta]))
    (ht : fields.lookup "type" = some (.str "AIMessageChunk"))
    (hrm : fields.lookup "response_metadata" = some (.obj rmf))
    (hfr : rmf.lookup "finish_reason" = none)
    (htcc : fields.lookup "tool_call_chunks" = some (.arr []))
    (hc : fields.lookup "content" = some (.str c)) :
    process_line line (some "messages") = .ok (some (.str c)) ∧
    (c = "" → line ≠ "" → str_startsWith line "event: " = false →
      ∀ acc : String, stream_step (acc, some "messages") line = .ok (acc, some "messages")) := by
  have h1 : process_line line (some "messages") = .ok (some (.str c)) := by
    cases hre : rmf.isEmpty <;>
      simp [process_line, hl, hp, py_unpack2, process_chunk, py_contains, py_getitem,
        py_dict_get, py_eq_str, py_truthy_obj, py_truthy_arr, ht, hrm, hfr, htcc, hc, hre]
  refine ⟨h1, ?_⟩
  intro hce hne hev acc
  simp [stream_step, hne, hev, h1, hce, py_truthy_str]

/-- Witness for C8: the spec's example — the line `event: messages`
followed by the data line whose chunk has content `"Hi"` and empty
`tool_call_chunks` decodes to the single unit `"Hi"`, and the whole
stream aggregates to the transcript `"Hi"`. -/
theorem C8_plain_content_witness :
    process_line
      "data: [\x7b\"type\":\"AIMessageChunk\",\"content\":\"Hi\",\"tool_call_chunks\":[],\"response_metadata\":\x7b\x7d\x7d, \x7b\x7d]"
      (some "messages") = .ok (some (.str "Hi")) ∧
    get_stream_lines ["event: messages",
      "data: [\x7b\"type\":\"AIMessageChunk\",\"content\":\"Hi\",\"tool_call_chunks\":[],\"response_metadata\":\x7b\x7d\x7d, \x7b\x7d]"]
      = .ok "Hi" :=
  ⟨(C8_plain_content
      "data: [\x7b\"type\":\"AIMessageChunk\",\"content\":\"Hi\",\"tool_call_chunks\":[],\"response_metadata\":\x7b\x7d\x7d, \x7b\x7d]"
      [("type", .str "AIMessageChunk"), ("content", .str "Hi"),
       ("tool_call_chunks", .arr []), ("response_metadata", .obj [])] []
      (.obj []) "Hi" (by decide) rfl rfl rfl rfl rfl rfl).1,
   by rfl⟩

/-! ## Claim C9: non-`AIMessageChunk` chunks are dropped -/

/-- Claim C9: a `messages` data line whose payload unpacks into two
elements but whose first element has no `type` field equal to
`"AIMessageChunk"` produces no output — streamed human or tool chunks
are silently dropped from the transcript. -/
theorem C9_non_ai_dropped (line : String) (fields : List (String × Json))
    (meta : Json)
    (hl : str_startsWith line "data: " = true)
    (hp : json_loads (str_drop line 6) = .ok (.arr [.obj fields, meta]))
    (ht : fields.lookup "type" ≠ some (.str "AIMessageChunk")) :
    process_line line (some "messages") = .ok none := by
  cases h : fields.lookup "type" with
  | none => simp [process_line, hl, hp, py_unpack2, process_chunk, py_contains, h]
  | some v =>
    have hne : py_eq_str v "AIMessageChunk" = false := by
      cases v <;> simp_all [py_eq_str]
    simp [process_line, hl, hp, py_unpack2, process_chunk, py_contains, py_getitem,
      h, hne]

/-- Witness for C9: a streamed tool message decodes to no output. -/
theorem C9_non_ai_dropped_witness :
    process_line "data: [\x7b\"type\":\"tool\",\"content\":\"3 rows\"\x7d, \x7b\x7d]"
      (some "messages") = .ok none :=
  C9_non_ai_dropped _ [("type", .str "tool"), ("content", .str "3 rows")] (.obj [])
    (by decide) rfl (by simp)

/-! ## Claim C10: the required-environment-variable check -/

/-- Claim C10: the required-environment-variable check of env.py never
raises, for every assignment of the process environment — the loop
tests the truthiness of the literal names in `required_env_vars`, which
are non-empty strings, and never consults the environment, so missing
`SUPABASE_URL` or `GROQ_API_KEY` is not detected at import time. -/
theorem C10_env_check_never_raises (env : String → Option String) :
    env_module_check env = .ok () := rfl
